import Mathlib

/-!
Verification of the secure-agent-scheduler core against its specification.

The Python source is shallowly embedded:
* `datetime` values are `PyDateTime` (a day ordinal plus microseconds within
  the day; `2024-01-01` has proleptic-Gregorian ordinal 738886, matching
  `datetime.toordinal`).  `datetime` range limits (year 1..9999) are not
  modelled; no claim depends on them.
* the regular-expression scans of `PlannerAgent._parse_schedule_request`
  are embedded as explicit leftmost-first backtracking matchers, one per
  pattern, reproducing Python `re.search` semantics (greedy/lazy
  quantifiers, ordered alternation, the lookahead of the title pattern,
  `.` not matching a newline, `re.IGNORECASE`);
* fallible Python code (exceptions) is embedded with `Except`; the caught
  exception taxonomy is carried as inductive error types whose
  constructors correspond one-to-one to the error strings of the source.
-/

/-- Python's `\s` character class over ASCII (space, tab, newline, carriage
return, vertical tab, form feed), also `str.strip`'s default strip set. -/
def pySpace (c : Char) : Bool :=
  c == ' ' || c == '\t' || c == '\n' || c == '\r' || c == '\x0b' || c == '\x0c'

/-- Case-insensitive literal match: if `pat` (given lowercase) matches a
prefix of `cs` up to `Char.toLower`, return the rest of `cs`. -/
def prefixCI : List Char → List Char → Option (List Char)
  | [], cs => some cs
  | _ :: _, [] => none
  | p :: ps, c :: cs => if c.toLower = p.toLower then prefixCI ps cs else none

/-- Numeric value of a digit run (the digits of `int(...)` on a match). -/
def digitsToNat (ds : List Char) : Nat :=
  ds.foldl (fun a c => a * 10 + (c.toNat - 48)) 0

/-- `pat` occurs as a contiguous subsequence of `cs` (Python's `in` on
strings). -/
def containsSeq (pat : List Char) : List Char → Bool
  | [] => pat.isEmpty
  | c :: cs => pat.isPrefixOf (c :: cs) || containsSeq pat cs

/-- `'tomorrow' in request_text.lower()` (planner_agent.py line 99). -/
def containsTomorrow (text : String) : Bool :=
  containsSeq "tomorrow".toList (text.toList.map Char.toLower)

/-- Python `str.strip()`: drop leading and trailing whitespace. -/
def pyStrip (cs : List Char) : List Char :=
  ((cs.dropWhile pySpace).reverse.dropWhile pySpace).reverse

/-- `re.search`: try the pattern matcher at every position left to right
(including the empty suffix) and return the first success. -/
def searchPos {α : Type} (f : List Char → Option α) : List Char → Option α
  | [] => f []
  | c :: cs => (f (c :: cs)) <|> searchPos f cs

/-! ### The clock-time pattern (planner_agent.py line 103)

`(\d{1,2}):?(\d{2})?\s*(am|pm|AM|PM)` with `re.IGNORECASE`.  The matcher
returns (hour, minute-or-0, matched-pm); the source reads the minute as
`int(time_match.group(2) or '00')` and tests `'pm' in group(0).lower()`,
which holds exactly when the am/pm alternative matched `pm`. -/

/-- Exactly two digits (`\d{2}`). -/
def twoDigits : List Char → Option (Nat × List Char)
  | a :: b :: rest =>
    if a.isDigit && b.isDigit then
      some ((a.toNat - 48) * 10 + (b.toNat - 48), rest)
    else none
  | _ => none

/-- Exactly one digit. -/
def oneDigit : List Char → Option (Nat × List Char)
  | a :: rest => if a.isDigit then some (a.toNat - 48, rest) else none
  | _ => none

/-- The `am|pm|AM|PM` alternation under `IGNORECASE`; `some true` means pm. -/
def amPm (cs : List Char) : Option Bool :=
  match prefixCI "am".toList cs with
  | some _ => some false
  | none =>
    match prefixCI "pm".toList cs with
    | some _ => some true
    | none => none

/-- Tail `\s*(am|pm|AM|PM)` of the time pattern.  `\s*` takes the maximal
run: giving a character back would leave whitespace, which cannot start
`am`/`pm`, so no live backtracking exists here. -/
def timeFinish (h : Nat) (m : Option Nat) (rest : List Char) : Option (Nat × Nat × Bool) :=
  match amPm (rest.dropWhile pySpace) with
  | some pm => some (h, m.getD 0, pm)
  | none => none

/-- Tail `(\d{2})?\s*(am|pm)` — the optional minute group, greedy: try the
two-digit alternative first, then the empty one. -/
def timeMinutes (h : Nat) (rest : List Char) : Option (Nat × Nat × Bool) :=
  match twoDigits rest with
  | some (m, r2) => timeFinish h (some m) r2 <|> timeFinish h none rest
  | none => timeFinish h none rest

/-- Tail `:?(\d{2})?\s*(am|pm)` — the optional colon, greedy. -/
def timeColon (h : Nat) (rest : List Char) : Option (Nat × Nat × Bool) :=
  match rest with
  | ':' :: r => timeMinutes h r <|> timeMinutes h rest
  | _ => timeMinutes h rest

/-- The whole time pattern anchored at one position; the hour `\d{1,2}` is
greedy: two digits first, then one. -/
def matchTimeAt (cs : List Char) : Option (Nat × Nat × Bool) :=
  match twoDigits cs with
  | some (h, r) =>
    timeColon h r <|>
      (match oneDigit cs with
       | some (h1, r1) => timeColon h1 r1
       | none => none)
  | none =>
    match oneDigit cs with
    | some (h1, r1) => timeColon h1 r1
    | none => none

/-- `re.search` of the clock-time pattern over the whole text. -/
def findTime (cs : List Char) : Option (Nat × Nat × Bool) :=
  searchPos matchTimeAt cs

/-! ### The duration pattern (planner_agent.py line 113)

`(\d+)\s*(minute|hour|hr)` with `IGNORECASE`.  `\d+` is greedy and maximal
(a shorter take leaves a digit, which cannot continue `\s*(minute|hour|hr)`),
likewise `\s*`.  The Boolean is `'hour' in group(2).lower()`, which holds
only for the `hour` alternative — `hr` does NOT contain `hour`. -/

/-- The `minute|hour|hr` alternation, in source order; result is
`'hour' in group(2).lower()`. -/
def unitAt (cs : List Char) : Option Bool :=
  match prefixCI "minute".toList cs with
  | some _ => some false
  | none =>
    match prefixCI "hour".toList cs with
    | some _ => some true
    | none =>
      match prefixCI "hr".toList cs with
      | some _ => some false
      | none => none

/-- The whole duration pattern anchored at one position. -/
def matchDurationAt (cs : List Char) : Option (Nat × Bool) :=
  let ds := cs.takeWhile Char.isDigit
  let rest := cs.dropWhile Char.isDigit
  if ds.isEmpty then none
  else
    match unitAt (rest.dropWhile pySpace) with
    | some isHour => some (digitsToNat ds, isHour)
    | none => none

/-- `re.search` of the duration pattern over the whole text. -/
def findDuration (cs : List Char) : Option (Nat × Bool) :=
  searchPos matchDurationAt cs

/-! ### The reminder pattern (planner_agent.py line 130)

`(?:remind|notify|alert).*?(\d+)\s*(minute|hour|hr)` with `IGNORECASE`.
After the verb, the lazy `.*?` grows one (non-newline) character at a time,
trying the `(\d+)\s*(minute|hour|hr)` tail — exactly `matchDurationAt` —
at each stop. -/

/-- The lazy `.*?` scan: first position (growing left to right) where the
duration tail matches; `.` cannot consume a newline. -/
def reminderScan : List Char → Option (Nat × Bool)
  | [] => none
  | c :: cs =>
    match matchDurationAt (c :: cs) with
    | some r => some r
    | none => if c = '\n' then none else reminderScan cs

/-- The whole reminder pattern anchored at one position.  The three verb
alternatives begin with distinct letters, so at most one matches and the
ordered attempts below realise the regex alternation faithfully. -/
def matchReminderAt (cs : List Char) : Option (Nat × Bool) :=
  match prefixCI "remind".toList cs with
  | some r => reminderScan r
  | none =>
    match prefixCI "notify".toList cs with
    | some r => reminderScan r
    | none =>
      match prefixCI "alert".toList cs with
      | some r => reminderScan r
      | none => none

/-- `re.search` of the reminder pattern over the whole text. -/
def findReminder (cs : List Char) : Option (Nat × Bool) :=
  searchPos matchReminderAt cs

/-! ### The title pattern (planner_agent.py line 122)

`(?:schedule|plan|set up|create)\s+(?:a|an)?\s*(.*?)(?=\s+(?:at|on|for|tomorrow|today|\d))`
with `IGNORECASE`.  Full backtracking is embedded: `\s+` and `\s*` are
greedy (maximal first, then shorter), `(?:a|an)?` tries `a`, then `an`,
then empty, and the lazy capture `(.*?)` grows from empty, testing the
lookahead after every step; `.` cannot consume a newline. -/

/-- The lookahead `(?=\s+(?:at|on|for|tomorrow|today|\d))`.  Inside it
`\s+` must reach the keyword/digit, and only the maximal whitespace run
can (keywords and digits do not start with whitespace). -/
def lookaheadOK (cs : List Char) : Bool :=
  match cs with
  | [] => false
  | c :: _ =>
    pySpace c &&
      (let r := cs.dropWhile pySpace
       match r with
       | [] => false
       | d :: _ =>
         d.isDigit ||
           (prefixCI "at".toList r).isSome || (prefixCI "on".toList r).isSome ||
           (prefixCI "for".toList r).isSome || (prefixCI "tomorrow".toList r).isSome ||
           (prefixCI "today".toList r).isSome)

/-- The lazy capture `(.*?)(?=...)`: accumulate consumed characters until
the lookahead holds; fail at end of input or at a newline. -/
def titleCapture : List Char → List Char → Option (List Char)
  | acc, [] => if lookaheadOK [] then some acc.reverse else none
  | acc, c :: rest =>
    if lookaheadOK (c :: rest) then some acc.reverse
    else if c = '\n' then none
    else titleCapture (c :: acc) rest

/-- Greedy `\s*` before the capture: try consuming `j` whitespace
characters for `j` = maximal down to `0`. -/
def titleStarSpaces : Nat → List Char → Option (List Char)
  | 0, cs => titleCapture [] cs
  | j + 1, cs => titleCapture [] (cs.drop (j + 1)) <|> titleStarSpaces j cs

/-- After the optional article: `\s*(.*?)(?=...)`. -/
def titleAfterOpt (cs : List Char) : Option (List Char) :=
  titleStarSpaces (cs.takeWhile pySpace).length cs

/-- The optional article `(?:a|an)?`: try `a`, then `an`, then empty. -/
def titleAfterGap (cs : List Char) : Option (List Char) :=
  (match prefixCI "a".toList cs with
   | some r => titleAfterOpt r
   | none => none) <|>
  (match prefixCI "an".toList cs with
   | some r => titleAfterOpt r
   | none => none) <|>
  titleAfterOpt cs

/-- Greedy `\s+` after the verb: try consuming `k` whitespace characters
for `k` = maximal down to `1` (at least one is required). -/
def titleSpaces1 : Nat → List Char → Option (List Char)
  | 0, _ => none
  | k + 1, cs => titleAfterGap (cs.drop (k + 1)) <|> titleSpaces1 k cs

/-- The verb alternation `(?:schedule|plan|set up|create)`.  No two
alternatives can match at the same position (they differ within their
first two characters), so ordered attempts are faithful. -/
def titleVerbAt (cs : List Char) : Option (List Char) :=
  (prefixCI "schedule".toList cs) <|> (prefixCI "plan".toList cs) <|>
    (prefixCI "set up".toList cs) <|> (prefixCI "create".toList cs)

/-- The whole title pattern anchored at one position. -/
def matchTitleAt (cs : List Char) : Option (List Char) :=
  match titleVerbAt cs with
  | none => none
  | some r => titleSpaces1 (r.takeWhile pySpace).length r

/-- `re.search` of the title pattern; the result is `group(1)`. -/
def findTitle (cs : List Char) : Option (List Char) :=
  searchPos matchTitleAt cs

/-! ### Python `datetime` values

A naive `datetime` is a calendar day (its `toordinal`: 2024-01-01 is
738886) plus the microseconds elapsed within that day.  `isoformat` is
injective on such values, so the source's comparisons of isoformat
strings coincide with equality of `PyDateTime` values (all values built
here keep `usec < uSecPerDay`). -/

structure PyDateTime where
  day : Nat
  usec : Nat
deriving DecidableEq, Repr

def uSecPerDay : Nat := 86400000000

/-- `dt + timedelta(microseconds := delta)` (used for hours, days and the
duration, all converted to microseconds). -/
def addUSec (dt : PyDateTime) (delta : Nat) : PyDateTime :=
  { day := dt.day + (dt.usec + delta) / uSecPerDay,
    usec := (dt.usec + delta) % uSecPerDay }

/-- Total microseconds since day 0 — the chronological order on datetimes. -/
def PyDateTime.toUSec (dt : PyDateTime) : Nat :=
  dt.day * uSecPerDay + dt.usec

/-- `dt - timedelta(microseconds := delta)` (truncated at day 0; Python
would raise `OverflowError` below year 1, which no claim exercises). -/
def subUSec (dt : PyDateTime) (delta : Nat) : PyDateTime :=
  { day := (dt.toUSec - delta) / uSecPerDay,
    usec := (dt.toUSec - delta) % uSecPerDay }

/-- Build a datetime from a day ordinal and hour/minute (seconds and
microseconds zero). -/
def mkDT (day h m : Nat) : PyDateTime :=
  { day := day, usec := (h * 3600 + m * 60) * 1000000 }

/-- A caught Python exception. -/
inductive PyError where
  | valueError (msg : String)
deriving DecidableEq, Repr

/-- `start_time.replace(hour := h, minute := m, second := 0, microsecond := 0)`
(planner_agent.py line 110): keeps the calendar day, raises `ValueError`
when the hour is not in 0..23 (checked first) or the minute not in 0..59. -/
def replaceTime (dt : PyDateTime) (h m : Nat) : Except PyError PyDateTime :=
  if h ≤ 23 then
    if m ≤ 59 then .ok { day := dt.day, usec := (h * 3600 + m * 60) * 1000000 }
    else .error (.valueError "minute must be in 0..59")
  else .error (.valueError "hour must be in 0..23")

/-! ### `PlannerAgent._parse_schedule_request` (planner_agent.py lines 81-144) -/

/-- The structured event data returned by `_parse_schedule_request`. -/
structure ParsedRequest where
  title : String
  start_time : PyDateTime
  end_time : PyDateTime
  reminder_minutes : Nat
  description : String
deriving DecidableEq, Repr

/-- The duration in minutes the extraction uses: 60 unless the duration
pattern matches, in which case the matched number, multiplied by 60 only
when the matched unit word contains `hour`. -/
def durationMinutes (cs : List Char) : Nat :=
  match findDuration cs with
  | none => 60
  | some (n, isHour) => if isHour then n * 60 else n

/-- The reminder offset in minutes: 30 unless the reminder pattern
matches. -/
def reminderMinutes (cs : List Char) : Nat :=
  match findReminder cs with
  | none => 30
  | some (n, isHour) => if isHour then n * 60 else n

/-- `PlannerAgent._parse_schedule_request(request_text)`, relative to the
reference instant `now` (`datetime.now()` in the source).  Steps, in
source order: baseline start = now + 1 hour; +1 day if the lowered text
contains `tomorrow`; clock-time override via `replace` (pm with hour < 12
adds 12) — the only failing step; duration; title (overridden even by an
empty capture, after `strip()`); end = start + duration; reminder. -/
def parseScheduleRequest (now : PyDateTime) (request_text : String) :
    Except PyError ParsedRequest :=
  let cs := request_text.toList
  let start0 := addUSec now 3600000000
  let start1 := if containsTomorrow request_text then addUSec start0 86400000000 else start0
  let startE : Except PyError PyDateTime :=
    match findTime cs with
    | none => .ok start1
    | some (h, m, pm) => replaceTime start1 (if pm && decide (h < 12) then h + 12 else h) m
  match startE with
  | .error e => .error e
  | .ok start2 =>
    let title :=
      match findTitle cs with
      | none => "Meeting"
      | some cap => String.mk (pyStrip cap)
    .ok { title := title,
          start_time := start2,
          end_time := addUSec start2 (durationMinutes cs * 60000000),
          reminder_minutes := reminderMinutes cs,
          description := "Scheduled from user request: " ++ request_text }

/-! ### `PlannerAgent.process` (planner_agent.py lines 20-79) -/

/-- The fields of `ScheduleEvent` (models/schedule.py) that the core logic
reads.  `event_id` is generated from a timestamp in the source; it is
never examined by any in-scope logic, so it is carried abstractly. -/
structure ScheduleEvent where
  event_id : String
  title : String
  start_time : PyDateTime
  end_time : PyDateTime
  user_id : String
  description : String
deriving DecidableEq, Repr

/-- Failure results of `PlannerAgent.process`; constructors correspond
one-to-one to its error strings: `conflict` is
`"An event is already scheduled at this time: <title> at <start>"`
(the spec's `ConflictError`), `parseFailure` is
`"Failed to process schedule request: <exception>"`. -/
inductive PlanError where
  | conflict (existingTitle : String) (existingStart : PyDateTime)
  | parseFailure (e : PyError)
deriving DecidableEq, Repr

/-- The success payload of `PlannerAgent.process`. -/
structure PlanOk where
  event : ScheduleEvent
  notification_required : Bool
  notification_time : PyDateTime
deriving DecidableEq, Repr

/-- The `ScheduleEvent` the planner constructs from the parsed fields
(planner_agent.py lines 42-50). -/
def plannedEvent (d : ParsedRequest) (user_id : String) : ScheduleEvent :=
  { event_id := "evt_0", title := d.title, start_time := d.start_time,
    end_time := d.end_time, user_id := user_id, description := d.description }

/-- `PlannerAgent.process({user_request, user_id})` together with the
resulting `scheduled_events` list: parse (exceptions caught into a
failure response, list untouched); reject if any already-accepted event
has the exact same start instant (first match reported, list untouched);
otherwise append the event and report
`notification_required = True` and
`notification_time = start - reminder minutes`. -/
def plannerProcess (now : PyDateTime) (scheduled : List ScheduleEvent)
    (user_request user_id : String) :
    Except PlanError PlanOk × List ScheduleEvent :=
  match parseScheduleRequest now user_request with
  | .error e => (.error (.parseFailure e), scheduled)
  | .ok d =>
    let event := plannedEvent d user_id
    match scheduled.find? (fun ex => decide (ex.start_time = event.start_time)) with
    | some ex => (.error (.conflict ex.title ex.start_time), scheduled)
    | none =>
      (.ok { event := event,
             notification_required := true,
             notification_time := subUSec d.start_time (d.reminder_minutes * 60000000) },
       scheduled ++ [event])

/-! ### Credentials and `NotifierAgent` (notifier_agent.py) -/

/-- The claims of a credential that the in-scope code reads: only `sub`
and `scopes` are ever consumed (`_has_required_scopes` reads `scopes`;
the `required_claims` attribute of the source is never used). -/
structure TokenClaims where
  sub : String
  scopes : List String
deriving DecidableEq, Repr

/-- A credential as the notifier sees it: its claims, whether its
signature verifies against the held secret, and its expiry instant
(seconds since epoch). -/
structure Token where
  claims : TokenClaims
  sigValid : Bool
  exp : Nat
deriving DecidableEq, Repr

/-- Modelled from the spec: the external Descope SDK call
`descope_client.validate_session(token)` is not part of this repository;
per §4.3/§6 validation "decodes/verifies signature and expiry" and must
"reject tampering/expiry", so it yields the claims exactly when the
signature is valid and the token is not yet expired. -/
def validate_session (now : Nat) (t : Token) : Option TokenClaims :=
  if t.sigValid && decide (now < t.exp) then some t.claims else none

/-- The environment the notifier reads: the `DEBUG` variable
(`os.getenv("DEBUG")`, `none` when unset) and whether a Descope client
was initialised (false whenever `DESCOPE_PROJECT_ID` or
`DESCOPE_MANAGEMENT_KEY` is missing). -/
structure NotifierEnv where
  debugFlag : Option String
  hasDescopeClient : Bool
deriving DecidableEq, Repr

/-- Python `str.lower()` (character-wise lowering suffices for every
string the comparisons here are made against). -/
def lowerStr (s : String) : String :=
  String.mk (s.toList.map Char.toLower)

/-- `os.getenv("DEBUG", "False").lower() == "true"` (notifier_agent.py
line 181). -/
def debugEnabled (env : NotifierEnv) : Bool :=
  lowerStr (env.debugFlag.getD "False") == "true"

/-- The fixed claim set returned by the debug bypass (sub `demo_user`,
email/sms/push scopes). -/
def debugClaims : TokenClaims :=
  { sub := "demo_user",
    scopes := ["notifications:email:send", "notifications:sms:send",
               "notifications:push:send"] }

/-- The fixed claim set returned when no Descope client is configured. -/
def mockClaims : TokenClaims :=
  { sub := "mock_user", scopes := ["notifications:email:send"] }

/-- `NotifierAgent._validate_token(token)` (notifier_agent.py lines
170-207): debug bypass first; then absent (falsy) token fails; then, with
no Descope client configured, validation is skipped and fixed mock claims
are returned; otherwise the SDK checks signature and expiry (its
exceptions are caught into `none`). -/
def validateToken (env : NotifierEnv) (now : Nat) (token : Option Token) :
    Option TokenClaims :=
  if debugEnabled env then some debugClaims
  else
    match token with
    | none => none
    | some t =>
      if !env.hasDescopeClient then some mockClaims
      else validate_session now t

/-- The closed channel enumeration (notifier_agent.py lines 28-32). -/
inductive NotificationType where
  | email | sms | push | slack
deriving DecidableEq, Repr

/-- The `required_scopes` table (notifier_agent.py lines 75-80). -/
def requiredScopes : NotificationType → List String
  | .email => ["notifications:email:send"]
  | .sms => ["notifications:sms:send"]
  | .push => ["notifications:push:send"]
  | .slack => ["notifications:slack:send"]

/-- The channel name of each notification type. -/
def channelName : NotificationType → String
  | .email => "email"
  | .sms => "sms"
  | .push => "push"
  | .slack => "slack"

/-- The single scope string `notifications:<channel>:send` the spec
associates with a channel. -/
def scopeFor (nt : NotificationType) : String :=
  "notifications:" ++ channelName nt ++ ":send"

/-- `NotifierAgent._has_required_scopes(claims, notification_type)`
(notifier_agent.py lines 209-223): the required scope set must be
non-empty and a subset of the token's scope set. -/
def hasRequiredScopes (claims : TokenClaims) (nt : NotificationType) : Bool :=
  let req := requiredScopes nt
  if req.isEmpty then false
  else req.all (fun s => claims.scopes.contains s)

/-- The notification request fields the notifier receives.  All six
required keys of `validate_input` are present by construction (the
orchestrator always sets them); an absent or falsy token value is
`Option.none`.  `notification_time` is pass-through data, never examined.
The orchestrator sends no `notification_type` key, so the source defaults
it to `"email"`. -/
structure NotifyInput where
  token : Option Token
  event_id : String
  user_id : String
  title : String
  message : String
  notification_time : PyDateTime
  notification_type : NotificationType
  recipients : List (String × String)
deriving DecidableEq, Repr

/-- Failure results of `NotifierAgent.process`; constructors correspond
one-to-one to its error strings: `invalidOrExpiredToken` is
`"Invalid or expired token"` (the spec's `AuthError`),
`insufficientPermissions` is `"Insufficient permissions"` (the spec's
`AuthorizationError`). -/
inductive NotifyError where
  | invalidOrExpiredToken
  | insufficientPermissions
deriving DecidableEq, Repr

/-- The success payload of `NotifierAgent.process` (the generated
notification id is timestamp-based in the source and carried
abstractly). -/
structure NotifyOutput where
  notification_id : String
  status : String
  recipients : List String
deriving DecidableEq, Repr

/-- `NotifierAgent.process(input_data)` (notifier_agent.py lines 97-168):
validate the token (a `none` claims result fails with the
invalid-or-expired error); check the scopes for the channel (failure is
the insufficient-permissions error); otherwise the simulated dispatch
always succeeds with status `sent` and the recipient ids. -/
def notifierProcess (env : NotifierEnv) (now : Nat) (input : NotifyInput) :
    Except NotifyError NotifyOutput :=
  match validateToken env now input.token with
  | none => .error .invalidOrExpiredToken
  | some claims =>
    if hasRequiredScopes claims input.notification_type then
      .ok { notification_id := "notif_0", status := "sent",
            recipients := input.recipients.map (fun r => r.1) }
    else .error .insufficientPermissions

/-! ### `get_descope_token` (utils/descope_token.py) and the orchestrator
(services/orchestrator.py) -/

/-- `get_descope_token(audience, scopes, user_id)`: a JWT signed with the
held (possibly demo) secret carrying the granted scopes, subject
`user_id` (or `planner_agent_001`), and a five-minute expiry.  Being
signed with the held secret, its signature verifies. -/
def get_descope_token (_audience : String) (scopes : List String)
    (user_id : Option String) (nowEpoch : Nat) : Token :=
  { claims := { sub := user_id.getD "planner_agent_001", scopes := scopes },
    sigValid := true,
    exp := nowEpoch + 300 }

/-- The notification request `Orchestrator._schedule_notification` builds
from the accepted event (orchestrator.py lines 52-76): reminder title and
message (the message's trailing rendered start time is elided here: no
in-scope logic ever reads `message`), the caller as single recipient, no
`notification_type` key (so the notifier defaults to email), and a token
requested with exactly the scope list `["notifications:email:send"]`. -/
def scheduleNotificationInput (nowEpoch : Nat) (event : ScheduleEvent)
    (ntime : PyDateTime) : NotifyInput :=
  { token := some (get_descope_token "notifier_agent_001"
      ["notifications:email:send"] (some event.user_id) nowEpoch),
    event_id := event.event_id,
    user_id := event.user_id,
    title := "Reminder: " ++ event.title,
    message := "Don't forget: " ++ event.title,
    notification_time := ntime,
    notification_type := .email,
    recipients := [(event.user_id, "user")] }

/-- A pipeline failure as `Orchestrator.process_request` reports it;
constructors correspond one-to-one to the raised strings
`"Failed to plan event: ..."` and
`"Failed to schedule notification: ..."`. -/
inductive OrchError where
  | planFailed (e : PlanError)
  | notifyFailed (e : NotifyError)
deriving DecidableEq, Repr

/-- The structured result of the entry operation
`Orchestrator.process_request` (orchestrator.py lines 87-109). -/
structure OrchResult where
  success : Bool
  event : Option ScheduleEvent
  notification : Option NotifyOutput
  error : Option OrchError
  status : String
deriving DecidableEq, Repr

/-- `Orchestrator.process_request(user_request, user_id)` together with
the resulting accepted-event list: run the planner (`_plan_event` raises
on failure, caught into a structured failure result); if
`notification_required` is false skip straight to the final result with
no notification; otherwise build the notification request, run the
notifier, and on failure surface a structured failure (the event list is
whatever the planner left — no rollback). -/
def processRequest (env : NotifierEnv) (now : PyDateTime) (nowEpoch : Nat)
    (scheduled : List ScheduleEvent) (user_request user_id : String) :
    OrchResult × List ScheduleEvent :=
  match plannerProcess now scheduled user_request user_id with
  | (.error e, sched') =>
    ({ success := false, event := none, notification := none,
       error := some (.planFailed e), status := "failed" }, sched')
  | (.ok pr, sched') =>
    if pr.notification_required = false then
      ({ success := true, event := some pr.event, notification := none,
         error := none, status := "completed" }, sched')
    else
      match notifierProcess env nowEpoch
          (scheduleNotificationInput nowEpoch pr.event pr.notification_time) with
      | .error e =>
        ({ success := false, event := none, notification := none,
           error := some (.notifyFailed e), status := "failed" }, sched')
      | .ok nout =>
        ({ success := true, event := some pr.event, notification := some nout,
           error := none, status := "completed" }, sched')

/-- Decidable equality of results, so that concrete runs can be settled
by `decide`. -/
instance {e a : Type} [DecidableEq e] [DecidableEq a] : DecidableEq (Except e a) :=
  fun x y =>
    match x, y with
    | .error v, .error w =>
      if h : v = w then .isTrue (by rw [h]) else .isFalse (by simp [h])
    | .ok v, .ok w =>
      if h : v = w then .isTrue (by rw [h]) else .isFalse (by simp [h])
    | .error _, .ok _ => .isFalse (by simp)
    | .ok _, .error _ => .isFalse (by simp)

/-! ### Concrete values used by the witnesses below -/

/-- The reference instant 2024-01-01T10:00:00 (day ordinal 738886). -/
def dtNow : PyDateTime := mkDT 738886 10 0

/-- The draft extracted from the pattern-free text `"hello"` relative to
`dtNow`: all defaults, start one hour later. -/
def dHello : ParsedRequest :=
  { title := "Meeting", start_time := mkDT 738886 11 0,
    end_time := mkDT 738886 12 0, reminder_minutes := 30,
    description := "Scheduled from user request: hello" }

/-- The event the planner builds from `dHello` for caller `u1`. -/
def evHello : ScheduleEvent := plannedEvent dHello "u1"

/-- The planner success payload for `dHello`. -/
def prHello : PlanOk :=
  { event := evHello, notification_required := true,
    notification_time := mkDT 738886 10 30 }

/-- The notifier environment with debug off and no Descope client (the
state of a deployment with no Descope credentials configured). -/
def envMock : NotifierEnv := { debugFlag := none, hasDescopeClient := false }

/-! ### Helper lemmas -/

theorem toUSec_addUSec (dt : PyDateTime) (k : Nat) :
    (addUSec dt k).toUSec = dt.toUSec + k := by
  simp only [addUSec, PyDateTime.toUSec, uSecPerDay]
  omega

theorem searchPos_eq_some {α : Type} (f : List Char → Option α) (cs : List Char) (v : α)
    (h : searchPos f cs = some v) : ∃ t, t <:+ cs ∧ f t = some v := by
  induction cs with
  | nil => exact ⟨[], List.suffix_refl [], h⟩
  | cons c cs ih =>
    rw [searchPos] at h
    cases hf : f (c :: cs) with
    | some w =>
      rw [hf] at h
      simp only [Option.some_orElse] at h
      exact ⟨c :: cs, List.suffix_refl _, hf ▸ h⟩
    | none =>
      rw [hf] at h
      simp only [Option.none_orElse] at h
      obtain ⟨t, hsuf, hft⟩ := ih h
      exact ⟨t, hsuf.trans (List.suffix_cons c cs), hft⟩

theorem searchPos_eq_none {α : Type} (f : List Char → Option α) (cs : List Char)
    (h : searchPos f cs = none) : ∀ t, t <:+ cs → f t = none := by
  induction cs with
  | nil =>
    intro t ht
    rw [List.suffix_nil] at ht
    subst ht
    exact h
  | cons c cs ih =>
    rw [searchPos] at h
    cases hf : f (c :: cs) with
    | some w => rw [hf] at h; simp at h
    | none =>
      rw [hf] at h
      simp only [Option.none_orElse] at h
      intro t ht
      rcases List.suffix_cons_iff.mp ht with h1 | h2
      · subst h1; exact hf
      · exact ih h t h2

theorem prefixCI_suffix (p : List Char) : ∀ cs r : List Char,
    prefixCI p cs = some r → r <:+ cs := by
  induction p with
  | nil =>
    intro cs r h
    rw [prefixCI] at h
    exact (Option.some_inj.mp h) ▸ List.suffix_refl cs
  | cons q qs ih =>
    intro cs r h
    cases cs with
    | nil => simp [prefixCI] at h
    | cons c cs' =>
      rw [prefixCI] at h
      by_cases he : c.toLower = q.toLower
      · rw [if_pos he] at h
        exact (ih cs' r h).trans (List.suffix_cons c cs')
      · rw [if_neg he] at h; exact absurd h (by simp)

theorem reminderScan_suffix : ∀ cs : List Char, ∀ v,
    reminderScan cs = some v → ∃ t, t <:+ cs ∧ matchDurationAt t = some v := by
  intro cs
  induction cs with
  | nil => intro v h; simp [reminderScan] at h
  | cons c cs ih =>
    intro v h
    rw [reminderScan] at h
    cases hm : matchDurationAt (c :: cs) with
    | some w =>
      rw [hm] at h
      exact ⟨c :: cs, List.suffix_refl _, hm.trans h⟩
    | none =>
      rw [hm] at h
      by_cases hn : c = '\n'
      · rw [if_pos hn] at h; exact absurd h (by simp)
      · rw [if_neg hn] at h
        obtain ⟨t, hsuf, hft⟩ := ih v h
        exact ⟨t, hsuf.trans (List.suffix_cons c cs), hft⟩

theorem matchReminderAt_suffix (cs : List Char) (v : Nat × Bool)
    (h : matchReminderAt cs = some v) :
    ∃ t, t <:+ cs ∧ matchDurationAt t = some v := by
  rw [matchReminderAt] at h
  cases h1 : prefixCI "remind".toList cs with
  | some r =>
    rw [h1] at h
    obtain ⟨t, hsuf, hft⟩ := reminderScan_suffix r v h
    exact ⟨t, hsuf.trans (prefixCI_suffix _ cs r h1), hft⟩
  | none =>
    rw [h1] at h
    cases h2 : prefixCI "notify".toList cs with
    | some r =>
      rw [h2] at h
      obtain ⟨t, hsuf, hft⟩ := reminderScan_suffix r v h
      exact ⟨t, hsuf.trans (prefixCI_suffix _ cs r h2), hft⟩
    | none =>
      rw [h2] at h
      cases h3 : prefixCI "alert".toList cs with
      | some r =>
        rw [h3] at h
        obtain ⟨t, hsuf, hft⟩ := reminderScan_suffix r v h
        exact ⟨t, hsuf.trans (prefixCI_suffix _ cs r h3), hft⟩
      | none => rw [h3] at h; exact absurd h (by simp)

/-- A reminder match contains a duration match: if the duration pattern
matches nowhere in the text, neither does the reminder pattern. -/
theorem findReminder_eq_none_of_findDuration (cs : List Char)
    (h : findDuration cs = none) : findReminder cs = none := by
  cases hr : findReminder cs with
  | none => rfl
  | some v =>
    obtain ⟨s, hsuf, hms⟩ := searchPos_eq_some matchReminderAt cs v hr
    obtain ⟨t, hsuf2, hmt⟩ := matchReminderAt_suffix s v hms
    have := searchPos_eq_none matchDurationAt cs h t (hsuf2.trans hsuf)
    rw [this] at hmt
    exact absurd hmt (by simp)

/-- The required-scope table realises the spec's single scope string
`notifications:<channel>:send`. -/
theorem requiredScopes_eq_scopeFor (nt : NotificationType) :
    requiredScopes nt = [scopeFor nt] := by
  cases nt <;> rfl

/-- The scope check holds exactly when the single required scope string is
among the credential's granted scopes. -/
theorem hasRequiredScopes_iff (claims : TokenClaims) (nt : NotificationType) :
    hasRequiredScopes claims nt = true ↔ scopeFor nt ∈ claims.scopes := by
  rw [hasRequiredScopes, requiredScopes_eq_scopeFor]
  simp

/-- The planner always requests a notification on success. -/
theorem plannerProcess_notifReq (now : PyDateTime) (scheduled : List ScheduleEvent)
    (user_request user_id : String) (pr : PlanOk)
    (h : (plannerProcess now scheduled user_request user_id).1 = .ok pr) :
    pr.notification_required = true := by
  rw [plannerProcess] at h
  cases hp : parseScheduleRequest now user_request with
  | error e => rw [hp] at h; simp at h
  | ok d =>
    rw [hp] at h
    simp only at h
    cases hf : scheduled.find?
        (fun ex => decide (ex.start_time = (plannedEvent d user_id).start_time)) with
    | some ex => rw [hf] at h; simp at h
    | none =>
      rw [hf] at h
      simp only [Except.ok.injEq] at h
      rw [← h]

/-! ### Claims -/

/-- C1, counterexample: with debug off but no Descope client configured
(the state whenever the Descope credentials are missing from the
environment), a credential that is BOTH expired (expiry 0, validated at
instant 100) and carries an invalid signature does not fail: validation
skips verification and returns the fixed mock claims, and the whole
notification request succeeds — refuting "validation fails with AuthError
whenever the signature is invalid, the credential is expired, or the
credential is absent ... a credential validated after its expiry instant
always fails". -/
theorem c1_bypass_counterexample :
    validateToken { debugFlag := none, hasDescopeClient := false } 100
        (some { claims := { sub := "attacker", scopes := [] },
                sigValid := false, exp := 0 }) = some mockClaims
    ∧ debugEnabled { debugFlag := none, hasDescopeClient := false } = false
    ∧ (0 : Nat) < 100
    ∧ notifierProcess { debugFlag := none, hasDescopeClient := false } 100
        { token := some { claims := { sub := "attacker", scopes := [] },
                          sigValid := false, exp := 0 },
          event_id := "evt_0", user_id := "attacker", title := "t",
          message := "m", notification_time := mkDT 0 0 0,
          notification_type := .email, recipients := [] } =
      .ok { notification_id := "notif_0", status := "sent", recipients := [] } :=
  ⟨rfl, rfl, by norm_num, rfl⟩

/-- C1, amended: with debug mode off, an absent credential always fails;
when additionally a Descope client is configured, a credential whose
signature is invalid or which is validated at or after its expiry instant
always fails (and a failed validation surfaces as the
invalid-or-expired error, the spec's AuthError).  The debug bypass is
keyed on the DEBUG environment variable alone — never on request input —
and is disabled when the variable is unset.  Without a configured client,
however, validation of a present credential is skipped entirely (see the
counterexample). -/
theorem c1_token_validation :
    (∀ b, debugEnabled { debugFlag := none, hasDescopeClient := b } = false)
    ∧ (∀ env now, debugEnabled env = false → validateToken env now none = none)
    ∧ (∀ env now t, debugEnabled env = false → env.hasDescopeClient = true →
        (t.sigValid = false ∨ t.exp ≤ now) →
        validateToken env now (some t) = none)
    ∧ (∀ env now (input : NotifyInput), validateToken env now input.token = none →
        notifierProcess env now input = .error .invalidOrExpiredToken) := by
  refine ⟨fun b => rfl, ?_, ?_, ?_⟩
  · intro env now hd
    simp [validateToken, hd]
  · intro env now t hd hc hbad
    simp only [validateToken, hd, Bool.false_eq_true, if_false, hc,
      Bool.not_true, validate_session]
    rcases hbad with hs | he
    · simp [hs]
    · have : ¬ now < t.exp := by omega
      simp [this]
  · intro env now input hv
    simp [notifierProcess, hv]

/-- C1, witness for the amended theorem: a well-signed credential already
expired (expiry 3, validated at 10) fails under a configured client with
debug off, and an absent credential fails under the default
environment. -/
theorem c1_token_validation_witness :
    validateToken { debugFlag := some "0", hasDescopeClient := true } 10
      (some { claims := { sub := "s", scopes := ["x"] },
              sigValid := true, exp := 3 }) = none
    ∧ validateToken { debugFlag := none, hasDescopeClient := false } 5 none = none :=
  ⟨c1_token_validation.2.2.1 { debugFlag := some "0", hasDescopeClient := true } 10
      { claims := { sub := "s", scopes := ["x"] }, sigValid := true, exp := 3 }
      rfl rfl (Or.inr (by norm_num)),
   c1_token_validation.2.1 { debugFlag := none, hasDescopeClient := false } 5 rfl⟩

/-- C2: with a validated credential, the notifier accepts a notification
for a channel exactly when the credential's granted scopes contain the
single required scope string `notifications:<channel>:send`; a credential
missing that scope fails with the insufficient-permissions error (the
spec's AuthorizationError) and no notification result is produced. -/
theorem c2_scope_law (env : NotifierEnv) (now : Nat) (input : NotifyInput)
    (claims : TokenClaims)
    (hv : validateToken env now input.token = some claims) :
    ((∃ out, notifierProcess env now input = .ok out) ↔
      scopeFor input.notification_type ∈ claims.scopes)
    ∧ (scopeFor input.notification_type ∉ claims.scopes →
        notifierProcess env now input = .error .insufficientPermissions) := by
  simp only [notifierProcess, hv]
  cases hs : hasRequiredScopes claims input.notification_type with
  | true =>
    simp only [if_true]
    refine ⟨⟨fun _ => (hasRequiredScopes_iff _ _).mp hs, fun _ => ⟨_, rfl⟩⟩, ?_⟩
    intro hmem
    exact absurd ((hasRequiredScopes_iff _ _).mp hs) hmem
  | false =>
    simp only [Bool.false_eq_true, if_false]
    refine ⟨⟨?_, ?_⟩, fun _ => by trivial⟩
    · rintro ⟨out, hout⟩
      exact absurd hout (by simp)
    · intro hmem
      rw [(hasRequiredScopes_iff claims input.notification_type).mpr hmem] at hs
      exact absurd hs (by simp)

/-- C2, witness: under the debug claim set (which carries the email-send
scope) an email notification is accepted. -/
theorem c2_scope_law_witness :
    ∃ out, notifierProcess { debugFlag := some "true", hasDescopeClient := false } 0
      { token := none, event_id := "e", user_id := "u", title := "t", message := "m",
        notification_time := mkDT 0 0 0, notification_type := .email,
        recipients := [] } = .ok out :=
  ((c2_scope_law { debugFlag := some "true", hasDescopeClient := false } 0
      { token := none, event_id := "e", user_id := "u", title := "t", message := "m",
        notification_time := mkDT 0 0 0, notification_type := .email,
        recipients := [] } debugClaims rfl).1).mpr (by decide)

/-- Shape of the orchestrator result: a failed run always carries an
error, a successful run always carries the event and the notification
result. -/
theorem processRequest_result_fields (env : NotifierEnv) (now : PyDateTime)
    (nowE : Nat) (sched : List ScheduleEvent) (r u : String) :
    (((processRequest env now nowE sched r u).1).success = false →
      ((processRequest env now nowE sched r u).1).error.isSome = true)
    ∧ (((processRequest env now nowE sched r u).1).success = true →
      ((processRequest env now nowE sched r u).1).event.isSome = true
      ∧ ((processRequest env now nowE sched r u).1).notification.isSome = true) := by
  rcases hpp : plannerProcess now sched r u with ⟨res, sched1⟩
  cases res with
  | error e =>
    have hres : (processRequest env now nowE sched r u).1 =
        { success := false, event := none, notification := none,
          error := some (.planFailed e), status := "failed" } := by
      rw [processRequest, hpp]
    rw [hres]
    exact ⟨fun _ => rfl, fun hs => by simp at hs⟩
  | ok pr =>
    have h1 : (plannerProcess now sched r u).1 = .ok pr := by rw [hpp]
    have hnr := plannerProcess_notifReq now sched r u pr h1
    cases hn : notifierProcess env nowE
        (scheduleNotificationInput nowE pr.event pr.notification_time) with
    | error ne =>
      have hres : (processRequest env now nowE sched r u).1 =
          { success := false, event := none, notification := none,
            error := some (.notifyFailed ne), status := "failed" } := by
        rw [processRequest, hpp]
        simp only [hnr]
        rw [hn]
        rfl
      rw [hres]
      exact ⟨fun _ => rfl, fun hs => by simp at hs⟩
    | ok nout =>
      have hres : (processRequest env now nowE sched r u).1 =
          { success := true, event := some pr.event, notification := some nout,
            error := none, status := "completed" } := by
        rw [processRequest, hpp]
        simp only [hnr]
        rw [hn]
        rfl
      rw [hres]
      exact ⟨fun hs => by simp at hs, fun _ => ⟨rfl, rfl⟩⟩

/-- C6: every pipeline-stage failure surfaces as the structured result
with success false and a carried error (a failing PLAN stage aborts the
run before NOTIFY and yields precisely the plan-failure record), and a
successful result always carries the accepted event and the notification
result; the entry operation is a total function into this structured
result type, so no exception crosses the pipeline boundary. -/
theorem c6_structured_result (env : NotifierEnv) (now : PyDateTime) (nowE : Nat)
    (sched : List ScheduleEvent) (r u : String) :
    (∀ e, (plannerProcess now sched r u).1 = .error e →
      (processRequest env now nowE sched r u).1 =
        { success := false, event := none, notification := none,
          error := some (.planFailed e), status := "failed" })
    ∧ (((processRequest env now nowE sched r u).1).success = false →
        ((processRequest env now nowE sched r u).1).error.isSome = true)
    ∧ (((processRequest env now nowE sched r u).1).success = true →
        ((processRequest env now nowE sched r u).1).event.isSome = true
        ∧ ((processRequest env now nowE sched r u).1).notification.isSome = true) := by
  refine ⟨?_, (processRequest_result_fields env now nowE sched r u).1,
    (processRequest_result_fields env now nowE sched r u).2⟩
  intro e' he
  rcases hpp : plannerProcess now sched r u with ⟨res, sched1⟩
  rw [hpp] at he
  simp only at he
  subst he
  rw [processRequest, hpp]

/-- C6, witness: a concrete run of the whole pipeline succeeds and its
result carries both the accepted event and the notification result. -/
theorem c6_structured_result_witness :
    ((processRequest envMock dtNow 0 [] "hello" "u1").1).event.isSome = true
    ∧ ((processRequest envMock dtNow 0 [] "hello" "u1").1).notification.isSome = true :=
  (c6_structured_result envMock dtNow 0 [] "hello" "u1").2.2 (by rfl)

/-- C10: the planner marks every successful result with
notification_required = true; the orchestrator's notification request
always asks for a credential whose granted scope list is exactly
["notifications:email:send"] and targets the email channel, whatever the
request text; hence every successful pipeline run carries a notification
result — the skip-to-done branch is never taken. -/
theorem c10_email_notification (now : PyDateTime) (sched : List ScheduleEvent)
    (r u : String) :
    (∀ pr, (plannerProcess now sched r u).1 = .ok pr →
      pr.notification_required = true)
    ∧ (∀ nowE (e : ScheduleEvent) (t : PyDateTime),
        ((scheduleNotificationInput nowE e t).token.map
          (fun tok => tok.claims.scopes)) = some ["notifications:email:send"]
        ∧ (scheduleNotificationInput nowE e t).notification_type = .email)
    ∧ (∀ env nowE, ((processRequest env now nowE sched r u).1).success = true →
        ((processRequest env now nowE sched r u).1).notification.isSome = true) := by
  refine ⟨fun pr h => plannerProcess_notifReq now sched r u pr h,
    fun nowE e t => ⟨rfl, rfl⟩, ?_⟩
  intro env nowE hs
  exact ((processRequest_result_fields env now nowE sched r u).2 hs).2

/-- C10, witness: on a concrete successful run the planner requested a
notification and the result carries one. -/
theorem c10_email_notification_witness :
    prHello.notification_required = true
    ∧ ((processRequest envMock dtNow 0 [] "hello" "u1").1).notification.isSome = true :=
  ⟨(c10_email_notification dtNow [] "hello" "u1").1 prHello (by rfl),
   (c10_email_notification dtNow [] "hello" "u1").2.2 envMock 0 (by rfl)⟩

/-- C7: the scenario input "Schedule team meeting tomorrow at 2 PM for 1
hour" evaluated with now = 2024-01-01T10:00:00 (ordinal 738886) yields a
draft whose title contains "team meeting", start 2024-01-02T14:00:00, end
2024-01-02T15:00:00 and reminder offset 30 minutes. -/
theorem c7_scenario :
    ∃ d, parseScheduleRequest dtNow
        "Schedule team meeting tomorrow at 2 PM for 1 hour" = .ok d
      ∧ containsSeq "team meeting".toList d.title.toList = true
      ∧ d.start_time = mkDT 738887 14 0
      ∧ d.end_time = mkDT 738887 15 0
      ∧ d.reminder_minutes = 30 :=
  ⟨{ title := "team meeting", start_time := mkDT 738887 14 0,
     end_time := mkDT 738887 15 0, reminder_minutes := 30,
     description := "Scheduled from user request: Schedule team meeting tomorrow at 2 PM for 1 hour" },
   by decide, by decide, rfl, rfl, rfl⟩

/-- C8: on any text where neither the clock-time, the duration nor the
title pattern matches, extraction returns exactly the fixed defaults —
title "Meeting", end = start + 60 minutes, reminder 30 — with start =
now + 1 hour, shifted by exactly one additional day when and only when
the lowered text contains "tomorrow".  (The reminder pattern embeds the
duration pattern, so it cannot match either.) -/
theorem c8_default_extraction (now : PyDateTime) (text : String)
    (hT : findTime text.toList = none)
    (hD : findDuration text.toList = none)
    (hL : findTitle text.toList = none) :
    parseScheduleRequest now text = .ok
      { title := "Meeting",
        start_time :=
          if containsTomorrow text then addUSec (addUSec now 3600000000) 86400000000
          else addUSec now 3600000000,
        end_time := addUSec
          (if containsTomorrow text then addUSec (addUSec now 3600000000) 86400000000
           else addUSec now 3600000000) 3600000000,
        reminder_minutes := 30,
        description := "Scheduled from user request: " ++ text } := by
  have hR := findReminder_eq_none_of_findDuration text.toList hD
  simp only [parseScheduleRequest, hT, hL, durationMinutes, hD, reminderMinutes, hR]

/-- C8, witness: the text "hello tomorrow" has no time, duration or title
pattern, so extraction yields the defaults with the one-day shift. -/
theorem c8_default_extraction_witness :
    parseScheduleRequest dtNow "hello tomorrow" = .ok
      { title := "Meeting",
        start_time :=
          if containsTomorrow "hello tomorrow" then
            addUSec (addUSec dtNow 3600000000) 86400000000
          else addUSec dtNow 3600000000,
        end_time := addUSec
          (if containsTomorrow "hello tomorrow" then
            addUSec (addUSec dtNow 3600000000) 86400000000
           else addUSec dtNow 3600000000) 3600000000,
        reminder_minutes := 30,
        description := "Scheduled from user request: hello tomorrow" } :=
  c8_default_extraction dtNow "hello tomorrow" (by rfl) (by rfl) (by rfl)

/-- C9, counterexample: the text "for 0 minutes" makes the duration
pattern yield 0, so the extracted draft has end = start — start < end
fails, refuting "every draft satisfies start < end ... whatever duration
the duration pattern yields". -/
theorem c9_zero_duration_counterexample :
    parseScheduleRequest dtNow "for 0 minutes" = .ok
      { title := "Meeting", start_time := mkDT 738886 11 0,
        end_time := mkDT 738886 11 0, reminder_minutes := 30,
        description := "Scheduled from user request: for 0 minutes" }
    ∧ ¬ (mkDT 738886 11 0).toUSec < (mkDT 738886 11 0).toUSec :=
  ⟨by decide, Nat.lt_irrefl _⟩

/-- C9, amended: every draft produced by extraction has end = start +
extracted duration by construction, hence start ≤ end always, with
strict start < end whenever the extracted duration (default 60) is
positive — a duration pattern yielding 0 gives start = end — and the
reminder offset is a non-negative number of minutes. -/
theorem c9_start_end_invariant (now : PyDateTime) (text : String)
    (d : ParsedRequest) (hp : parseScheduleRequest now text = .ok d) :
    d.end_time = addUSec d.start_time (durationMinutes text.toList * 60000000)
    ∧ d.start_time.toUSec ≤ d.end_time.toUSec
    ∧ (0 < durationMinutes text.toList →
        d.start_time.toUSec < d.end_time.toUSec)
    ∧ 0 ≤ d.reminder_minutes := by
  simp only [parseScheduleRequest] at hp
  split at hp
  · simp at hp
  · simp only [Except.ok.injEq] at hp
    subst hp
    refine ⟨rfl, ?_, ?_, Nat.zero_le _⟩
    · dsimp only
      rw [toUSec_addUSec]
      omega
    · intro hpos
      dsimp only
      rw [toUSec_addUSec]
      have hmul : 0 < durationMinutes text.toList * 60000000 :=
        Nat.mul_pos hpos (by norm_num)
      omega

/-- C9, witness for the amended theorem: the C7 scenario draft satisfies
the invariant. -/
theorem c9_start_end_invariant_witness :
    ({ title := "team meeting", start_time := mkDT 738887 14 0,
       end_time := mkDT 738887 15 0, reminder_minutes := 30,
       description := "Scheduled from user request: Schedule team meeting tomorrow at 2 PM for 1 hour" } : ParsedRequest).start_time.toUSec ≤
      ({ title := "team meeting", start_time := mkDT 738887 14 0,
         end_time := mkDT 738887 15 0, reminder_minutes := 30,
         description := "Scheduled from user request: Schedule team meeting tomorrow at 2 PM for 1 hour" } : ParsedRequest).end_time.toUSec :=
  (c9_start_end_invariant dtNow
    "Schedule team meeting tomorrow at 2 PM for 1 hour"
    { title := "team meeting", start_time := mkDT 738887 14 0,
      end_time := mkDT 738887 15 0, reminder_minutes := 30,
      description := "Scheduled from user request: Schedule team meeting tomorrow at 2 PM for 1 hour" }
    (by decide)).2.1

